import Mathlib

/-!
Verification of the conversion dispatch and batch-assembly pipeline of the
smart document converter backend (src/backend/app.py), as a shallow
embedding.  The codec layer (PIL) is modelled at its observable boundary:
a byte payload is either an encoded image file (format tag plus page
images), a UTF-8 text payload, or raw non-image bytes; `Image.open`
succeeds exactly on encoded image payloads, and `img.save` produces an
encoded image payload of the chosen codec.  ZIP archives are modelled by
their observable entry lists.  All other functions are translated
branch-for-branch from the source.
-/

namespace SDC

/-- PIL color modes occurring in the source (RGB, RGBA, P, plus others
grouped as L/CMYK for generality). -/
inductive Mode
  | RGB
  | RGBA
  | P
  | L
  | CMYK
deriving DecidableEq, Repr

/-- Decoded raster image: a color mode plus pixel dimensions.  Shallow
model of a PIL Image object. -/
structure Img where
  mode : Mode
  width : Nat
  height : Nat
deriving DecidableEq, Repr

/-- Byte payloads, modelled at the codec boundary: an encoded image file
(its codec tag and the page images it encodes), a UTF-8 text payload, or
raw non-image bytes.  `Bytes.raw []` is the empty byte string. -/
inductive Bytes
  | image (fmt : String) (pages : List Img)
  | text (s : String)
  | raw (data : List Nat)
deriving DecidableEq, Repr

/-- Model of PIL Image.open: succeeds exactly on encoded image payloads
with at least one page, yielding the first page; any other payload raises
(modelled as none). -/
def imageOpen : Bytes → Option Img
  | Bytes.image _ (i :: _) => some i
  | _ => none

/-- Model of img.convert applied with RGB: same pixels, RGB mode. -/
def Img.convertRGB (i : Img) : Img :=
  { i with mode := Mode.RGB }

/-- The recurring source idiom: if img.mode in [RGBA, P] then
img = img.convert(RGB), else img unchanged. -/
def normalizeRGB (i : Img) : Img :=
  if i.mode = Mode.RGBA ∨ i.mode = Mode.P then i.convertRGB else i

/-- An uploaded file: its original filename and its content bytes. -/
structure UploadItem where
  filename : String
  content : Bytes
deriving DecidableEq, Repr

/-- ASCII lowercase of one character, as Python str.lower acts on the
format tokens in play. -/
def lowerChar (c : Char) : Char :=
  if 'A' ≤ c ∧ c ≤ 'Z' then Char.ofNat (c.toNat + 32) else c

/-- Model of Python str.lower on format tokens: lowercase every ASCII
letter. -/
def strLower (s : String) : String :=
  String.mk (s.data.map lowerChar)

/-- Model of werkzeug secure_filename (external collaborator): drops path
separators so the result is a plain filename component. -/
def secure_filename (s : String) : String :=
  String.mk (s.data.filter (fun c => ¬ (c = '/' ∨ c = '\\')))

/-- Model of os.path.splitext: split off the extension at the last dot,
except that a name whose only dots are leading dots has no extension. -/
def splitext (s : String) : String × String :=
  let rev := s.data.reverse
  let extRev := rev.takeWhile (fun c => ¬ c = '.')
  if extRev.length = rev.length then (s, "")
  else
    let stemRev := rev.drop (extRev.length + 1)
    if stemRev.all (fun c => c = '.') then (s, "")
    else (String.mk stemRev.reverse, String.mk ('.' :: extRev.reverse))

/-- Model of os.path.basename: the part after the last slash. -/
def basename (s : String) : String :=
  String.mk ((s.data.reverse.takeWhile (fun c => ¬ c = '/')).reverse)

/-- A successful single-file response: payload bytes, download filename,
declared mimetype (the observable fields of flask send_file). -/
structure FileResponse where
  payload : Bytes
  download_name : String
  mimetype : String
deriving DecidableEq, Repr

/-- A successful ZIP response: the archive entry list (entry name and
entry bytes, in write order), the download filename, and the mimetype. -/
structure ZipResponse where
  entries : List (String × Bytes)
  download_name : String
  mimetype : String
deriving DecidableEq, Repr

/-- Observable outcome of a request: a single-file response, a ZIP
response, or a JSON error body with an HTTP status code. -/
inductive ConvertResult
  | file (r : FileResponse)
  | zip (z : ZipResponse)
  | error (msg : String) (code : Nat)
deriving DecidableEq, Repr

/-- Model of convert_image_format (app.py lines 107-164): decode, apply
the per-format mode normalization and encoder, name the output
basename.format.  A decode failure raises, caught by convert_single_file
as a 400 error. -/
def convert_image_format (file_stream : Bytes) (filename : String)
    (output_format : String) : ConvertResult :=
  match imageOpen file_stream with
  | none => ConvertResult.error "Conversion failed: Image conversion failed" 400
  | some img =>
    let result : Bytes × String :=
      if output_format = "jpg" ∨ output_format = "jpeg" then
        (Bytes.image "JPEG" [normalizeRGB img], "image/jpeg")
      else if output_format = "png" then
        (Bytes.image "PNG" [img], "image/png")
      else if output_format = "bmp" then
        (Bytes.image "BMP" [normalizeRGB img], "image/bmp")
      else if output_format = "tiff" then
        (Bytes.image "TIFF" [img], "image/tiff")
      else if output_format = "webp" then
        (Bytes.image "WebP" [img], "image/webp")
      else if output_format = "gif" then
        (Bytes.image "GIF"
          [if ¬ (img.mode = Mode.P ∨ img.mode = Mode.RGB)
            then img.convertRGB else img], "image/gif")
      else
        (Bytes.image "ICO" [img], "image/x-icon")
    let name := (splitext filename).1
    ConvertResult.file ⟨result.1, name ++ "." ++ output_format, result.2⟩

/-- Model of convert_document_format (app.py lines 166-252).  pdf, doc,
docx, rtf, odt all decode the upload as an image and encode a single-page
PDF; txt builds a text stub from the filename alone, touching neither the
content bytes nor any clock. -/
def convert_document_format (file_stream : Bytes) (filename : String)
    (output_format : String) : ConvertResult :=
  let name := (splitext filename).1
  if output_format = "pdf" then
    match imageOpen file_stream with
    | none => ConvertResult.error "Conversion failed: Document conversion failed" 400
    | some img =>
      ConvertResult.file
        ⟨Bytes.image "PDF" [normalizeRGB img], name ++ ".pdf", "application/pdf"⟩
  else if output_format = "docx" ∨ output_format = "doc" then
    match imageOpen file_stream with
    | none => ConvertResult.error "Conversion failed: Document conversion failed" 400
    | some img =>
      let mimetype :=
        if output_format = "docx" then
          "application/vnd.openxmlformats-officedocument.wordprocessingml.document"
        else "application/msword"
      ConvertResult.file
        ⟨Bytes.image "PDF" [normalizeRGB img], name ++ "." ++ output_format, mimetype⟩
  else if output_format = "txt" then
    let text_content :=
      "Converted from: " ++ filename ++ "\n" ++
      "Conversion date: " ++ basename name ++ "\n"
    ConvertResult.file ⟨Bytes.text text_content, name ++ ".txt", "text/plain"⟩
  else
    match imageOpen file_stream with
    | none => ConvertResult.error "Conversion failed: Document conversion failed" 400
    | some img =>
      let mimetype :=
        if output_format = "rtf" then "application/rtf"
        else if output_format = "odt" then "application/vnd.oasis.opendocument.text"
        else "application/octet-stream"
      ConvertResult.file
        ⟨Bytes.image "PDF" [normalizeRGB img], name ++ "." ++ output_format, mimetype⟩

/-- Model of convert_spreadsheet_format (app.py lines 254-293): every
sub-format writes the same two-line CSV text; only the extension and
mimetype vary. -/
def convert_spreadsheet_format (file_stream : Bytes) (filename : String)
    (output_format : String) : ConvertResult :=
  let name := (splitext filename).1
  let csv_content := "Original File,Conversion Date\n" ++ filename ++ "," ++ name ++ "\n"
  if output_format = "csv" then
    ConvertResult.file ⟨Bytes.text csv_content, name ++ ".csv", "text/csv"⟩
  else
    let mimetype :=
      if output_format = "xlsx" then
        "application/vnd.openxmlformats-officedocument.spreadsheetml.sheet"
      else if output_format = "xls" then "application/vnd.ms-excel"
      else if output_format = "ods" then "application/vnd.oasis.opendocument.spreadsheet"
      else "application/octet-stream"
    ConvertResult.file
      ⟨Bytes.text csv_content, name ++ "." ++ output_format, mimetype⟩

/-- Model of convert_presentation_format (app.py lines 295-324): decode as
image, normalize, encode single-page PDF relabelled under the requested
presentation extension. -/
def convert_presentation_format (file_stream : Bytes) (filename : String)
    (output_format : String) : ConvertResult :=
  match imageOpen file_stream with
  | none => ConvertResult.error "Conversion failed: Presentation conversion failed" 400
  | some img =>
    let name := (splitext filename).1
    let mimetype :=
      if output_format = "pptx" then
        "application/vnd.openxmlformats-officedocument.presentationml.presentation"
      else if output_format = "ppt" then "application/vnd.ms-powerpoint"
      else if output_format = "odp" then "application/vnd.oasis.opendocument.presentation"
      else "application/octet-stream"
    ConvertResult.file
      ⟨Bytes.image "PDF" [normalizeRGB img], name ++ "." ++ output_format, mimetype⟩

/-- Model of convert_to_svg (app.py lines 326-346): decode (no mode
normalization in the source) and re-encode as PNG; the output filename is
forced to basename.png. -/
def convert_to_svg (file_stream : Bytes) (filename : String) : ConvertResult :=
  match imageOpen file_stream with
  | none => ConvertResult.error "Conversion failed: SVG conversion failed" 400
  | some img =>
    let name := (splitext filename).1
    ConvertResult.file ⟨Bytes.image "PNG" [img], name ++ ".png", "image/png"⟩

/-- Model of convert_to_heic (app.py lines 348-371): decode, normalize,
encode JPEG; the output filename is forced to basename.jpg. -/
def convert_to_heic (file_stream : Bytes) (filename : String) : ConvertResult :=
  match imageOpen file_stream with
  | none => ConvertResult.error "Conversion failed: HEIC conversion failed" 400
  | some img =>
    let name := (splitext filename).1
    ConvertResult.file ⟨Bytes.image "JPEG" [normalizeRGB img], name ++ ".jpg", "image/jpeg"⟩

/-- Model of convert_single_file (app.py lines 69-105): sanitize the
filename and dispatch by format family; unknown tokens give a 400 error. -/
def convert_single_file (file : UploadItem) (output_format : String) : ConvertResult :=
  let filename := secure_filename file.filename
  let file_stream := file.content
  if output_format ∈ ["png", "jpg", "jpeg", "bmp", "tiff", "webp", "gif", "ico"] then
    convert_image_format file_stream filename output_format
  else if output_format ∈ ["pdf", "docx", "doc", "txt", "rtf", "odt"] then
    convert_document_format file_stream filename output_format
  else if output_format ∈ ["xlsx", "xls", "csv", "ods"] then
    convert_spreadsheet_format file_stream filename output_format
  else if output_format ∈ ["pptx", "ppt", "odp"] then
    convert_presentation_format file_stream filename output_format
  else if output_format = "svg" then
    convert_to_svg file_stream filename
  else if output_format = "heic" then
    convert_to_heic file_stream filename
  else
    ConvertResult.error ("Unsupported format: " ++ output_format) 400

/-- The per-item encode step of convert_multiple_to_format (the if/elif
chain at app.py lines 389-406).  A format outside the chain runs no save
call, so the output stream stays empty and the entry bytes are the empty
byte string. -/
def batchEncode (output_format : String) (img : Img) : Bytes :=
  if output_format = "jpg" ∨ output_format = "jpeg" then
    Bytes.image "JPEG" [normalizeRGB img]
  else if output_format = "png" then Bytes.image "PNG" [img]
  else if output_format = "bmp" then Bytes.image "BMP" [normalizeRGB img]
  else if output_format = "tiff" then Bytes.image "TIFF" [img]
  else if output_format = "webp" then Bytes.image "WebP" [img]
  else if output_format = "pdf" then Bytes.image "PDF" [normalizeRGB img]
  else Bytes.raw []

/-- The per-item loop of convert_multiple_to_format (app.py lines
378-416): decode each item and write basename.format into the archive; a
decode failure is caught and the item skipped. -/
def batchEntries (files : List UploadItem) (output_format : String) :
    List (String × Bytes) :=
  files.filterMap (fun file =>
    let filename := secure_filename file.filename
    match imageOpen file.content with
    | some img =>
      let name := (splitext filename).1
      some (name ++ "." ++ output_format, batchEncode output_format img)
    | none => none)

/-- Model of convert_multiple_to_format, continued: the archive of the
per-item results is always returned as a success named
converted_to_FORMAT.zip. -/
def convert_multiple_to_format (files : List UploadItem)
    (output_format : String) : ConvertResult :=
  ConvertResult.zip
    ⟨batchEntries files output_format,
     "converted_to_" ++ output_format ++ ".zip", "application/zip"⟩

/-- The per-item loop of convert_to_zip (app.py lines 432-457): decode,
normalize and re-encode each item as PNG under basename_converted.png; on
failure fall back to the original bytes under the sanitized original
filename. -/
def zipEntries (files : List UploadItem) : List (String × Bytes) :=
  files.map (fun file =>
    let filename := secure_filename file.filename
    match imageOpen file.content with
    | some img =>
      let name := (splitext filename).1
      (name ++ "_converted.png", Bytes.image "PNG" [normalizeRGB img])
    | none => (filename, file.content))

/-- Model of convert_to_zip (app.py lines 427-466), continued: the archive
of the per-item results is always named converted_files.zip. -/
def convert_to_zip (files : List UploadItem) : ConvertResult :=
  ConvertResult.zip ⟨zipEntries files, "converted_files.zip", "application/zip"⟩

/-- The per-item loop of merge_to_single_file (app.py lines 472-487):
decode and normalize every item, dropping failures. -/
def mergeImages (files : List UploadItem) : List Img :=
  files.filterMap (fun file =>
    match imageOpen file.content with
    | some img => some (normalizeRGB img)
    | none => none)

/-- Model of merge_to_single_file (app.py lines 468-526), continued: error
out when nothing decoded; otherwise both the pdf and the docx branch save
the page list as one PDF, differing only in mimetype; the filename is
basename.format for one input file and merged_document.format otherwise. -/
def merge_to_single_file (files : List UploadItem)
    (output_format : String) : ConvertResult :=
  let images := mergeImages files
  if images.isEmpty then
    ConvertResult.error "No valid images found to convert" 400
  else if output_format = "pdf" ∨ output_format = "docx" then
    let payload := Bytes.image "PDF" images
    let mimetype :=
      if output_format = "pdf" then "application/pdf"
      else "application/vnd.openxmlformats-officedocument.wordprocessingml.document"
    let filename :=
      if files.length = 1 then
        (splitext (secure_filename ((files.headD ⟨"", Bytes.raw []⟩).filename))).1
          ++ "." ++ output_format
      else "merged_document." ++ output_format
    ConvertResult.file ⟨payload, filename, mimetype⟩
  else
    ConvertResult.error "Conversion failed: name mimetype is not defined" 400

/-- Model of the convert route (app.py lines 45-67): lowercase the format,
reject an empty upload list, then dispatch zip / single / merge / batch in
that priority order. -/
def convert (files : List UploadItem) (rawFormat : String) : ConvertResult :=
  let output_format := strLower rawFormat
  match files with
  | [] => ConvertResult.error "No files provided" 400
  | f :: rest =>
    if output_format = "zip" then
      convert_to_zip (f :: rest)
    else if (f :: rest).length = 1 then
      convert_single_file f output_format
    else if output_format = "pdf" ∨ output_format = "docx" then
      merge_to_single_file (f :: rest) output_format
    else
      convert_multiple_to_format (f :: rest) output_format

/-- Sample decodable upload: a one-page PNG of an RGB 2x2 image. -/
def itemA : UploadItem := ⟨"photo.png", Bytes.image "PNG" [⟨Mode.RGB, 2, 2⟩]⟩

/-- Second sample decodable upload: a one-page JPEG of an RGBA image. -/
def itemB : UploadItem := ⟨"scan.jpg", Bytes.image "JPEG" [⟨Mode.RGBA, 2, 3⟩]⟩

/-- Sample non-decodable upload: raw bytes that are not an image file. -/
def itemBad : UploadItem := ⟨"notes.txt", Bytes.raw [1, 2, 3]⟩

/-- Second sample non-decodable upload. -/
def itemBad2 : UploadItem := ⟨"data.bin", Bytes.raw [9]⟩

/-- The per-item relation of the Archive Repackager: the archive entry of
an input item is the PNG re-encoding of its decoded, normalized image
under the stem plus _converted.png, or on decode failure the original
bytes, unchanged, under the sanitized original filename. -/
def zipEntrySpec (x : UploadItem) (e : String × Bytes) : Prop :=
  (∃ img, imageOpen x.content = some img ∧
    e = ((splitext (secure_filename x.filename)).1 ++ "_converted.png",
         Bytes.image "PNG" [normalizeRGB img])) ∨
  (imageOpen x.content = none ∧
    e = (secure_filename x.filename, x.content))


/-- Claim C1: with a non-empty item list the dispatcher picks exactly one
path, in priority order: lowercased format zip gives the Archive
Repackager whatever the count; otherwise one item gives the Single-Item
Converter; otherwise more than one item with format pdf or docx gives the
Merge Assembler; otherwise the Batch Assembler. -/
theorem C1_dispatch_priority (f : UploadItem) (rest : List UploadItem) (raw : String) :
    (strLower raw = "zip" → convert (f :: rest) raw = convert_to_zip (f :: rest)) ∧
    (strLower raw ≠ "zip" → (f :: rest).length = 1 →
      convert (f :: rest) raw = convert_single_file f (strLower raw)) ∧
    (strLower raw ≠ "zip" → 1 < (f :: rest).length →
      (strLower raw = "pdf" ∨ strLower raw = "docx") →
      convert (f :: rest) raw = merge_to_single_file (f :: rest) (strLower raw)) ∧
    (strLower raw ≠ "zip" → 1 < (f :: rest).length →
      ¬ (strLower raw = "pdf" ∨ strLower raw = "docx") →
      convert (f :: rest) raw = convert_multiple_to_format (f :: rest) (strLower raw)) := by
  refine ⟨fun hz => ?_, fun hz h1 => ?_, fun hz h2 hm => ?_, fun hz h2 hm => ?_⟩
  · simp only [convert]
    rw [if_pos hz]
  · simp only [convert]
    rw [if_neg hz, if_pos h1]
  · have hlen : ¬ (f :: rest).length = 1 := by omega
    simp only [convert]
    rw [if_neg hz, if_neg hlen, if_pos hm]
  · have hlen : ¬ (f :: rest).length = 1 := by omega
    simp only [convert]
    rw [if_neg hz, if_neg hlen, if_neg hm]

/-- Witness for C1: a concrete request with uppercase format ZIP takes the
Archive Repackager path. -/
theorem C1_dispatch_priority_witness :
    convert [itemA] "ZIP" = convert_to_zip [itemA] :=
  (C1_dispatch_priority itemA [] "ZIP").1 (by decide)

/-- Claim C8: an empty upload list gives the NoFilesError response, a 400
error with the message No files provided, and no conversion path runs. -/
theorem C8_empty_upload (raw : String) :
    convert [] raw = ConvertResult.error "No files provided" 400 := rfl

/-- Claim C10: the txt output is a pure function of the sanitized
filename: two requests with the same filename and arbitrary, possibly
different, content bytes give identical responses (the embedding takes no
clock input, matching the source, which reads no time), and the line
labelled Conversion date carries the basename of the file stem, not a
date. -/
theorem C10_txt_depends_only_on_filename (fname : String) (c1 c2 : Bytes) :
    convert [⟨fname, c1⟩] "txt" = convert [⟨fname, c2⟩] "txt" ∧
    convert [⟨fname, c1⟩] "txt" = ConvertResult.file
      ⟨Bytes.text ("Converted from: " ++ secure_filename fname ++ "\n" ++
        "Conversion date: " ++ basename (splitext (secure_filename fname)).1 ++ "\n"),
       (splitext (secure_filename fname)).1 ++ ".txt", "text/plain"⟩ :=
  ⟨rfl, rfl⟩

/-- Claim C6: every spreadsheet-family format produces the same two-line
CSV text payload, built from the sanitized filename and its stem; only
the extension of the returned filename and the mimetype depend on the
requested format. -/
theorem C6_spreadsheet_same_payload (file : UploadItem) (fmt : String)
    (h : fmt ∈ ["csv", "xlsx", "xls", "ods"]) :
    ∃ mt : String,
      convert [file] fmt = ConvertResult.file
        ⟨Bytes.text ("Original File,Conversion Date\n" ++ secure_filename file.filename
            ++ "," ++ (splitext (secure_filename file.filename)).1 ++ "\n"),
         (splitext (secure_filename file.filename)).1 ++ "." ++ fmt, mt⟩ := by
  fin_cases h
  · refine ⟨"text/csv", ?_⟩
    have h2 : (splitext (secure_filename file.filename)).1 ++ "." ++ "csv"
        = (splitext (secure_filename file.filename)).1 ++ ".csv" := by
      rw [String.append_assoc]
      exact rfl
    rw [h2]
    exact rfl
  · exact ⟨"application/vnd.openxmlformats-officedocument.spreadsheetml.sheet", rfl⟩
  · exact ⟨"application/vnd.ms-excel", rfl⟩
  · exact ⟨"application/vnd.oasis.opendocument.spreadsheet", rfl⟩

/-- Witness for C6: concrete csv request. -/
theorem C6_spreadsheet_same_payload_witness :
    ∃ mt : String,
      convert [itemA] "csv" = ConvertResult.file
        ⟨Bytes.text ("Original File,Conversion Date\n" ++ secure_filename itemA.filename
            ++ "," ++ (splitext (secure_filename itemA.filename)).1 ++ "\n"),
         (splitext (secure_filename itemA.filename)).1 ++ "." ++ "csv", mt⟩ :=
  C6_spreadsheet_same_payload itemA "csv" (by decide)

/-- Two strings with distinct equal-length suffixes differ, whatever the
prefixes. -/
theorem append_ne_of_suffix_ne (a b s t : String)
    (hlen : s.data.length = t.data.length) (hne : s ≠ t) : a ++ s ≠ b ++ t := by
  intro h
  apply hne
  have hd : a.data ++ s.data = b.data ++ t.data := by
    rw [← String.data_append, ← String.data_append, h]
  exact String.ext (List.append_inj' hd hlen).2

/-- Claim C9: a single-file svg request on a decodable upload returns the
decoded image re-encoded as PNG, under the stem of the sanitized filename
with a forced .png extension; the returned name can never end in .svg. -/
theorem C9_svg_outputs_png (file : UploadItem) (img : Img)
    (h : imageOpen file.content = some img) :
    convert [file] "svg" = ConvertResult.file
      ⟨Bytes.image "PNG" [img],
       (splitext (secure_filename file.filename)).1 ++ ".png", "image/png"⟩ ∧
    ∀ stem : String, (splitext (secure_filename file.filename)).1 ++ ".png" ≠ stem ++ ".svg" := by
  constructor
  · have h1 : convert [file] "svg"
        = convert_to_svg file.content (secure_filename file.filename) := rfl
    rw [h1]
    simp only [convert_to_svg, h]
  · intro stem
    exact append_ne_of_suffix_ne _ stem ".png" ".svg" (by decide) (by decide)

/-- Witness for C9: the svg request on the sample PNG upload yields that
PNG re-encoded, named photo.png. -/
theorem C9_svg_outputs_png_witness :
    convert [itemA] "svg" = ConvertResult.file
      ⟨Bytes.image "PNG" [⟨Mode.RGB, 2, 2⟩],
       (splitext (secure_filename itemA.filename)).1 ++ ".png", "image/png"⟩ :=
  (C9_svg_outputs_png itemA ⟨Mode.RGB, 2, 2⟩ (by decide)).1

/-- Claim C4: a merge request (more than one item, format pdf or docx after
lowercasing) in which no item decodes as an image returns the
NoValidImagesError 400 response and no output document. -/
theorem C4_merge_zero_decodable (f g : UploadItem) (rest : List UploadItem) (raw : String)
    (hfmt : strLower raw = "pdf" ∨ strLower raw = "docx")
    (hall : ∀ x ∈ f :: g :: rest, imageOpen x.content = none) :
    convert (f :: g :: rest) raw = ConvertResult.error "No valid images found to convert" 400 := by
  have hz : strLower raw ≠ "zip" := by
    rcases hfmt with h | h <;> rw [h] <;> decide
  have hlen : ¬ (f :: g :: rest).length = 1 := by simp
  have hstep : convert (f :: g :: rest) raw
      = merge_to_single_file (f :: g :: rest) (strLower raw) := by
    simp only [convert]
    rw [if_neg hz, if_neg hlen, if_pos hfmt]
  rw [hstep]
  have himg : mergeImages (f :: g :: rest) = [] := by
    rw [mergeImages, List.filterMap_eq_nil_iff]
    intro a ha
    rw [hall a ha]
  simp only [merge_to_single_file, himg]
  rfl

/-- Witness for C4: two non-decodable uploads merged to pdf give the
NoValidImagesError response. -/
theorem C4_merge_zero_decodable_witness :
    convert [itemBad, itemBad2] "pdf"
      = ConvertResult.error "No valid images found to convert" 400 :=
  C4_merge_zero_decodable itemBad itemBad2 [] "pdf" (Or.inl (by decide)) (by decide)

/-- Claim C7: on any multi-item input a docx merge request produces the
same payload bytes as a pdf merge request; only the declared mimetype and
the filename extension differ (or both fail identically when nothing
decodes). -/
theorem C7_docx_merge_equals_pdf (f g : UploadItem) (rest : List UploadItem) :
    (convert (f :: g :: rest) "docx"
        = ConvertResult.error "No valid images found to convert" 400 ∧
     convert (f :: g :: rest) "pdf"
        = ConvertResult.error "No valid images found to convert" 400) ∨
    (∃ payload : Bytes,
      convert (f :: g :: rest) "docx" = ConvertResult.file
        ⟨payload, "merged_document.docx",
         "application/vnd.openxmlformats-officedocument.wordprocessingml.document"⟩ ∧
      convert (f :: g :: rest) "pdf" = ConvertResult.file
        ⟨payload, "merged_document.pdf", "application/pdf"⟩) := by
  have hd : convert (f :: g :: rest) "docx"
      = merge_to_single_file (f :: g :: rest) "docx" := rfl
  have hp : convert (f :: g :: rest) "pdf"
      = merge_to_single_file (f :: g :: rest) "pdf" := rfl
  rw [hd, hp]
  by_cases hcase : mergeImages (f :: g :: rest) = []
  · left
    constructor <;> simp only [merge_to_single_file, hcase] <;> rfl
  · right
    refine ⟨Bytes.image "PDF" (mergeImages (f :: g :: rest)), ?_, ?_⟩ <;>
      simp only [merge_to_single_file] <;>
      rw [if_neg (by simp [hcase])] <;>
      rfl


/-- The batch archive has one entry per decodable item: the entry count of
the per-item loop equals the count of items whose decode succeeds. -/
theorem batchEntries_length (files : List UploadItem) (fmt : String) :
    (batchEntries files fmt).length
      = (files.filter (fun x => (imageOpen x.content).isSome)).length := by
  induction files with
  | nil => rfl
  | cons a l ih =>
    simp only [batchEntries, List.filterMap_cons, List.filter_cons] at ih ⊢
    cases h : imageOpen a.content <;> simp [h, ih]

/-- Claim C5: on the batch path (more than one item, lowercased format not
zip, pdf or docx) every per-item decode failure is dropped without
aborting: the request always succeeds with an archive named
converted_to_FORMAT.zip whose entry count is the number of decodable
items, and when every item fails the archive is empty. -/
theorem C5_batch_drops_failures (f g : UploadItem) (rest : List UploadItem) (raw : String)
    (hz : strLower raw ≠ "zip") (hp : strLower raw ≠ "pdf") (hd : strLower raw ≠ "docx") :
    ∃ entries, convert (f :: g :: rest) raw = ConvertResult.zip
        ⟨entries, "converted_to_" ++ strLower raw ++ ".zip", "application/zip"⟩ ∧
      entries.length = ((f :: g :: rest).filter
        (fun x => (imageOpen x.content).isSome)).length ∧
      ((∀ x ∈ f :: g :: rest, imageOpen x.content = none) → entries = []) := by
  have hstep : convert (f :: g :: rest) raw
      = convert_multiple_to_format (f :: g :: rest) (strLower raw) := by
    simp only [convert]
    rw [if_neg hz, if_neg (by simp), if_neg (fun h => h.elim hp hd)]
  refine ⟨batchEntries (f :: g :: rest) (strLower raw), ?_, batchEntries_length _ _, ?_⟩
  · rw [hstep]
    rfl
  · intro hall
    rw [batchEntries, List.filterMap_eq_nil_iff]
    intro a ha
    simp [hall a ha]

/-- Witness for C5: two non-decodable items at format gif give a success
with an empty archive named converted_to_gif.zip. -/
theorem C5_batch_drops_failures_witness :
    ∃ entries, convert [itemBad, itemBad2] "gif" = ConvertResult.zip
        ⟨entries, "converted_to_" ++ strLower "gif" ++ ".zip", "application/zip"⟩ ∧
      entries.length = (([itemBad, itemBad2] : List UploadItem).filter
        (fun x => (imageOpen x.content).isSome)).length ∧
      ((∀ x ∈ [itemBad, itemBad2], imageOpen x.content = none) → entries = []) :=
  C5_batch_drops_failures itemBad itemBad2 [] "gif" (by decide) (by decide) (by decide)

/-- Counterexample to claim C2 as stated: a batch request at format gif
(two items, format not zip, pdf or docx) whose items both decode
successfully produces an archive whose two entries hold the empty byte
string, because no branch of the per-item encoder chain handles gif and
the empty output stream is written as the entry.  The archive does
contain empty entries. -/
theorem C2_batch_counterexample :
    convert [itemA, itemB] "gif" = ConvertResult.zip
      ⟨[("photo.gif", Bytes.raw []), ("scan.gif", Bytes.raw [])],
       "converted_to_gif.zip", "application/zip"⟩ ∧
    imageOpen itemA.content = some ⟨Mode.RGB, 2, 2⟩ ∧
    imageOpen itemB.content = some ⟨Mode.RGBA, 2, 3⟩ :=
  ⟨rfl, rfl, rfl⟩

/-- Claim C2 (amended): restricted to the formats the per-item encoder
chain handles (jpg, jpeg, png, bmp, tiff, webp), the batch archive has at
most one entry per input item and exactly one per decodable item, every
entry stems from a decodable item, is named with the stem of that item
plus the requested format as extension, and holds a one-page encoded
image (never the empty byte string); items that fail to decode contribute
no entry. -/
theorem C2_batch_entries_encodable (f g : UploadItem) (rest : List UploadItem) (raw : String)
    (hfmt : strLower raw ∈ ["jpg", "jpeg", "png", "bmp", "tiff", "webp"]) :
    ∃ z, convert (f :: g :: rest) raw = ConvertResult.zip z ∧
      z.entries.length ≤ (f :: g :: rest).length ∧
      z.entries.length = ((f :: g :: rest).filter
        (fun x => (imageOpen x.content).isSome)).length ∧
      ∀ e ∈ z.entries, ∃ x ∈ f :: g :: rest, ∃ img,
        imageOpen x.content = some img ∧
        e.1 = (splitext (secure_filename x.filename)).1 ++ "." ++ strLower raw ∧
        ∃ cf i, e.2 = Bytes.image cf [i] := by
  have h6 : strLower raw = "jpg" ∨ strLower raw = "jpeg" ∨ strLower raw = "png" ∨
      strLower raw = "bmp" ∨ strLower raw = "tiff" ∨ strLower raw = "webp" := by
    simpa using hfmt
  have hz : strLower raw ≠ "zip" := by
    rcases h6 with h | h | h | h | h | h <;> rw [h] <;> decide
  have hp : strLower raw ≠ "pdf" := by
    rcases h6 with h | h | h | h | h | h <;> rw [h] <;> decide
  have hd : strLower raw ≠ "docx" := by
    rcases h6 with h | h | h | h | h | h <;> rw [h] <;> decide
  have hstep : convert (f :: g :: rest) raw
      = convert_multiple_to_format (f :: g :: rest) (strLower raw) := by
    simp only [convert]
    rw [if_neg hz, if_neg (by simp), if_neg (fun h => h.elim hp hd)]
  refine ⟨⟨batchEntries (f :: g :: rest) (strLower raw),
      "converted_to_" ++ strLower raw ++ ".zip", "application/zip"⟩,
    by rw [hstep]; rfl, ?_, batchEntries_length _ _, ?_⟩
  · rw [batchEntries_length]
    exact List.length_filter_le _ _
  · intro e he
    rw [batchEntries, List.mem_filterMap] at he
    obtain ⟨a, ha, hfa⟩ := he
    cases hio : imageOpen a.content with
    | none => simp [hio] at hfa
    | some img =>
      simp only [hio] at hfa
      obtain rfl := Option.some_inj.mp hfa
      refine ⟨a, ha, img, hio, rfl, ?_⟩
      rcases h6 with h | h | h | h | h | h <;> rw [h] <;> exact ⟨_, _, rfl⟩

/-- Witness for C2 (amended): two decodable items and one junk item at
format png. -/
theorem C2_batch_entries_encodable_witness :
    ∃ z, convert [itemA, itemB, itemBad] "png" = ConvertResult.zip z ∧
      z.entries.length ≤ ([itemA, itemB, itemBad] : List UploadItem).length ∧
      z.entries.length = (([itemA, itemB, itemBad] : List UploadItem).filter
        (fun x => (imageOpen x.content).isSome)).length ∧
      ∀ e ∈ z.entries, ∃ x ∈ [itemA, itemB, itemBad], ∃ img,
        imageOpen x.content = some img ∧
        e.1 = (splitext (secure_filename x.filename)).1 ++ "." ++ strLower "png" ∧
        ∃ cf i, e.2 = Bytes.image cf [i] :=
  C2_batch_entries_encodable itemA itemB [itemBad] "png" (by decide)

/-- Every input item lines up with exactly one archive entry of the
per-item loop of convert_to_zip, in order, satisfying zipEntrySpec. -/
theorem zipEntries_spec (files : List UploadItem) :
    List.Forall₂ zipEntrySpec files (zipEntries files) := by
  induction files with
  | nil => exact List.Forall₂.nil
  | cons a l ih =>
    refine List.Forall₂.cons ?_ ih
    cases hio : imageOpen a.content with
    | some img => exact Or.inl ⟨img, hio, by simp [hio]⟩
    | none => exact Or.inr ⟨hio, by simp [hio]⟩

/-- Claim C3: a request whose lowercased format is zip answers with an
archive always named converted_files.zip in which each input item appears
exactly once, in order: as its PNG re-encoding named stem_converted.png,
or, when its decode fails, as its byte-identical original content under
its sanitized original filename; the two cases exclude each other, and no
item is dropped. -/
theorem C3_zip_repackager (f : UploadItem) (rest : List UploadItem) (raw : String)
    (h : strLower raw = "zip") :
    ∃ z, convert (f :: rest) raw = ConvertResult.zip z ∧
      z.download_name = "converted_files.zip" ∧
      z.entries.length = (f :: rest).length ∧
      List.Forall₂ zipEntrySpec (f :: rest) z.entries ∧
      ∀ x e, zipEntrySpec x e →
        ¬ ((∃ img, imageOpen x.content = some img) ∧ imageOpen x.content = none) := by
  refine ⟨⟨zipEntries (f :: rest), "converted_files.zip", "application/zip"⟩,
    ?_, rfl, ?_, zipEntries_spec (f :: rest), ?_⟩
  · simp only [convert]
    rw [if_pos h]
    rfl
  · exact ((zipEntries_spec (f :: rest)).length_eq).symm
  · rintro x e - ⟨⟨img, hsome⟩, hnone⟩
    rw [hsome] at hnone
    exact Option.some_ne_none img hnone

/-- Witness for C3: one decodable and one junk item with uppercase format
Zip. -/
theorem C3_zip_repackager_witness :
    ∃ z, convert [itemA, itemBad] "Zip" = ConvertResult.zip z ∧
      z.download_name = "converted_files.zip" ∧
      z.entries.length = ([itemA, itemBad] : List UploadItem).length ∧
      List.Forall₂ zipEntrySpec [itemA, itemBad] z.entries ∧
      ∀ x e, zipEntrySpec x e →
        ¬ ((∃ img, imageOpen x.content = some img) ∧ imageOpen x.content = none) :=
  C3_zip_repackager itemA [itemBad] "Zip" (by decide)

end SDC
